import Mathlib

/-
  Verification of the CRM lead-management layer (`leads/views.py`,
  `leads/tests.py`) via a shallow embedding.

  The Django class-based views of `leads/views.py` are embedded as pure
  functions over an explicit database state.  Each handler function mirrors
  the configuration in the source (template names, querysets, the
  `form_valid` override of `LeadCreateView`, the `get_success_url`
  definitions) together with the documented semantics of the generic base
  classes (CreateView / UpdateView / DeleteView / ListView / DetailView /
  TemplateView and LoginRequiredMixin), which the repository consumes as an
  external collaborator.
-/

namespace CRM

/-- A persisted `Lead` row: first name, last name, non-negative age
(validated at the form boundary), and an optional owning agent reference. -/
structure Lead where
  id : Nat
  first_name : String
  last_name : String
  age : Int
  agent : Option Nat
deriving Repr, DecidableEq

/-- The persisted state visible to this layer: the `Lead` table plus the
next auto-increment primary key. -/
structure DB where
  leads : List Lead
  nextId : Nat
deriving Repr, DecidableEq

/-- An outbound email, with the fields passed to `send_mail` in
`LeadCreateView.form_valid`. -/
structure Mail where
  subject : String
  message : String
  from_email : String
  recipient_list : List String
deriving Repr, DecidableEq

/-- An HTTP response produced by a handler: a rendered template (with
per-field form errors, possibly empty), a redirect, or a not-found. -/
inductive Response where
  | render (template : String) (errors : List (String × String))
  | redirect (url : String)
  | notFound
deriving Repr, DecidableEq

/-- The HTTP status code of a response: 200 for a render, 302 for a
redirect, 404 for not-found. -/
def Response.status : Response → Nat
  | .render _ _ => 200
  | .redirect _ => 302
  | .notFound => 404

/-- An observable side effect, in the order the handler performs it. -/
inductive Event where
  | mailSent (m : Mail)
  | leadSaved (l : Lead)
  | leadDeleted (l : Lead)
deriving Repr, DecidableEq

/-- The outcome of one request: the side-effect trace in execution order,
the database after the request, the response (`none` when an unhandled
exception propagates out of the handler), and the lead data exposed in the
rendered body. -/
structure HResult where
  events : List Event
  db : DB
  response : Option Response
  exposed : List Lead
deriving Repr, DecidableEq

/-- The raw field data of a create/update POST, as bound by the form. -/
structure LeadFormData where
  first_name : String
  last_name : String
  age : Int
deriving Repr, DecidableEq

/-- The validation message attached to the `age` field when `age < 0`
(the standard minimum-value message quoted by `tests.py`). -/
def ageMinErrorMsg : String := "Ensure this value is greater than or equal to 0."

/-- The required-field validation message. -/
def requiredErrorMsg : String := "This field is required."

/-- Modelled from the spec: `leads/forms.py` (`LeadForm` / `LeadModelForm`)
is not under `src/`.  The spec states the form fields are first name
(text, required, non-empty per form defaults), last name (text, required),
and age (integer, must satisfy age >= 0, violation message
"Ensure this value is greater than or equal to 0."), validated at the form
boundary.  This returns the per-field error list of one validation pass. -/
def leadFormErrors (d : LeadFormData) : List (String × String) :=
  (if d.first_name = "" then [("first_name", requiredErrorMsg)] else []) ++
  (if d.last_name = "" then [("last_name", requiredErrorMsg)] else []) ++
  (if d.age < 0 then [("age", ageMinErrorMsg)] else [])

/-- `form.is_valid()`: true exactly when validation produced no errors. -/
def leadFormIsValid (d : LeadFormData) : Bool :=
  (leadFormErrors d).isEmpty

/-- The error messages validation attached to one field. -/
def fieldErrors (d : LeadFormData) (f : String) : List String :=
  ((leadFormErrors d).filter (fun p => p.1 == f)).map (fun p => p.2)

/-- The login redirect target produced by `LoginRequiredMixin` for an
unauthenticated request. -/
def loginUrl : String := "login"

/-- `reverse ("leads:lead-list")`, the success URL of the create, update and
delete views. -/
def leadListUrl : String := "leads:lead-list"

/-- `LeadListView.queryset = Lead.objects.all()` (views.py line 48). -/
def LeadListView.queryset (db : DB) : List Lead := db.leads

/-- `LeadDetailView.queryset = Lead.objects.all()` (views.py line 67). -/
def LeadDetailView.queryset (db : DB) : List Lead := db.leads

/-- `LeadUpdateView.queryset = Lead.objects.all()` (views.py line 121). -/
def LeadUpdateView.queryset (db : DB) : List Lead := db.leads

/-- `LeadDeleteView.queryset = Lead.objects.all()` (views.py line 143). -/
def LeadDeleteView.queryset (db : DB) : List Lead := db.leads

/-- The notification sent by `LeadCreateView.form_valid`: every field is a
literal in the source, independent of the form data and the session. -/
def createNotification : Mail :=
  { subject := "A lead has been created"
    message := "Go to the site to see the new lead"
    from_email := "test@test.com"
    recipient_list := ["test2@test.com"] }

/-- `form.save()` on a create: a fresh `Lead` row built from the bound form
data (the create form carries no agent field, per the POST payload in
`tests.py`), appended under the next primary key. -/
def dbInsert (db : DB) (d : LeadFormData) : DB × Lead :=
  let l : Lead :=
    { id := db.nextId, first_name := d.first_name, last_name := d.last_name
      age := d.age, agent := none }
  ({ leads := db.leads ++ [l], nextId := db.nextId + 1 }, l)

/-- `form.save()` on an update: overwrite the bound fields of an existing
row, leaving its identity and agent reference unchanged. -/
def applyForm (d : LeadFormData) (l : Lead) : Lead :=
  { l with first_name := d.first_name, last_name := d.last_name, age := d.age }

/-- Look a primary key up in a queryset, as the detail/update/delete views
do with the `pk` URL argument. -/
def lookupLead (qs : List Lead) (pk : Nat) : Option Lead :=
  qs.find? (fun l => l.id == pk)

/-- The effect of an update save on one stored row: the row with the
requested pk is overwritten with the bound fields, every other row is left
as it is. -/
def updateRow (pk : Nat) (d : LeadFormData) (x : Lead) : Lead :=
  if x.id == pk then applyForm d x else x

/-- `LandingPageView` (a `TemplateView` with `template_name = "landing.html"`):
renders the landing template for any request, authenticated or not, with no
side effects. -/
def landingGet (auth : Bool) (user : Nat) (db : DB) : HResult :=
  { events := [], db := db
    response := some (Response.render "landing.html" []), exposed := [] }

/-- `LeadListView`: behind `LoginRequiredMixin`; renders
`leads/lead_list.html` over its (unfiltered) queryset. -/
def leadListGet (auth : Bool) (user : Nat) (db : DB) : HResult :=
  if auth then
    { events := [], db := db
      response := some (Response.render "leads/lead_list.html" [])
      exposed := LeadListView.queryset db }
  else
    { events := [], db := db
      response := some (Response.redirect loginUrl), exposed := [] }

/-- `LeadDetailView`: behind `LoginRequiredMixin`; fetches the object with
the requested pk from its queryset and renders `leads/lead_detail.html`,
or surfaces not-found. -/
def leadDetailGet (auth : Bool) (user : Nat) (pk : Nat) (db : DB) : HResult :=
  if auth then
    match lookupLead (LeadDetailView.queryset db) pk with
    | some l =>
        { events := [], db := db
          response := some (Response.render "leads/lead_detail.html" [])
          exposed := [l] }
    | none =>
        { events := [], db := db
          response := some Response.notFound, exposed := [] }
  else
    { events := [], db := db
      response := some (Response.redirect loginUrl), exposed := [] }

/-- `LeadCreateView`, GET: behind `LoginRequiredMixin`; renders the empty
create form. -/
def leadCreateGet (auth : Bool) (user : Nat) (db : DB) : HResult :=
  if auth then
    { events := [], db := db
      response := some (Response.render "leads/lead_create.html" [])
      exposed := [] }
  else
    { events := [], db := db
      response := some (Response.redirect loginUrl), exposed := [] }

/-- `LeadCreateView`, POST.  If the form validates, `form_valid` runs: first
`send_mail` (the literal notification), then `super().form_valid(form)`
saves the new row and redirects to `get_success_url () = leads:lead-list`.
`mailOk` models the mail transport: when it raises, the exception
propagates out of `form_valid` before the save, so no row is persisted and
no response is produced.  If the form does not validate, the form is
re-rendered with its errors (status 200) and nothing is sent or saved. -/
def leadCreatePost (auth : Bool) (user : Nat) (d : LeadFormData)
    (mailOk : Bool) (db : DB) : HResult :=
  if auth then
    if leadFormIsValid d then
      if mailOk then
        let (db2, l) := dbInsert db d
        { events := [Event.mailSent createNotification, Event.leadSaved l]
          db := db2
          response := some (Response.redirect leadListUrl), exposed := [] }
      else
        { events := [], db := db, response := none, exposed := [] }
    else
      { events := [], db := db
        response := some (Response.render "leads/lead_create.html" (leadFormErrors d))
        exposed := [] }
  else
    { events := [], db := db
      response := some (Response.redirect loginUrl), exposed := [] }

/-- `LeadUpdateView`, POST: behind `LoginRequiredMixin`; loads the object
with the requested pk from its queryset (not-found when absent); on a valid
form, saves the overwritten fields in place and redirects to
`leads:lead-list`; on an invalid form, re-renders with errors. -/
def leadUpdatePost (auth : Bool) (user : Nat) (pk : Nat) (d : LeadFormData)
    (db : DB) : HResult :=
  if auth then
    match lookupLead (LeadUpdateView.queryset db) pk with
    | some l =>
        if leadFormIsValid d then
          { events := [Event.leadSaved (applyForm d l)]
            db := { db with leads := db.leads.map (updateRow pk d) }
            response := some (Response.redirect leadListUrl), exposed := [] }
        else
          { events := [], db := db
            response := some (Response.render "leads/lead_update.html" (leadFormErrors d))
            exposed := [] }
    | none =>
        { events := [], db := db
          response := some Response.notFound, exposed := [] }
  else
    { events := [], db := db
      response := some (Response.redirect loginUrl), exposed := [] }

/-- `LeadDeleteView`, POST: behind `LoginRequiredMixin`; loads the object
with the requested pk from its queryset (not-found when absent), deletes
it, and redirects to `leads:lead-list`. -/
def leadDeletePost (auth : Bool) (user : Nat) (pk : Nat) (db : DB) : HResult :=
  if auth then
    match lookupLead (LeadDeleteView.queryset db) pk with
    | some l =>
        { events := [Event.leadDeleted l]
          db := { db with leads := db.leads.filter (fun x => !(x.id == pk)) }
          response := some (Response.redirect leadListUrl), exposed := [] }
    | none =>
        { events := [], db := db
          response := some Response.notFound, exposed := [] }
  else
    { events := [], db := db
      response := some (Response.redirect loginUrl), exposed := [] }

/-- The mails a request actually delivered, read off its event trace. -/
def sentMails (r : HResult) : List Mail :=
  r.events.filterMap (fun e =>
    match e with
    | Event.mailSent m => some m
    | _ => none)

/-- The lead created by the `tests.py` fixture. -/
def leadJohn : Lead :=
  { id := 1, first_name := "John", last_name := "Doe", age := 30, agent := some 1 }

/-- A sample database used by concrete witnesses: one lead, as in the
`tests.py` fixture. -/
def db0 : DB := { leads := [leadJohn], nextId := 2 }

/-- The valid POST payload used by `test_lead_create` / `test_lead_update`. -/
def dJohn : LeadFormData := { first_name := "John", last_name := "Doe", age := 25 }

/-- The invalid payload used by `test_lead_form_invalid`. -/
def dNegAge : LeadFormData := { first_name := "John", last_name := "Doe", age := -25 }

/-! ### Helper lemmas -/

/-- `applyForm` preserves the row identity. -/
theorem applyForm_id (d : LeadFormData) (l : Lead) : (applyForm d l).id = l.id := rfl

/-- A lookup whose head row carries the requested pk returns that head. -/
theorem lookupLead_cons_pos {pk : Nat} {a : Lead} (rest : List Lead)
    (h : (a.id == pk) = true) : lookupLead (a :: rest) pk = some a := by
  simp [lookupLead, List.find?_cons, h]

/-- A lookup skips a head row with a different pk. -/
theorem lookupLead_cons_neg {pk : Nat} {a : Lead} (rest : List Lead)
    (h : (a.id == pk) = false) : lookupLead (a :: rest) pk = lookupLead rest pk := by
  simp [lookupLead, List.find?_cons, h]

/-- `updateRow` overwrites the row with the requested pk. -/
theorem updateRow_pos {pk : Nat} {d : LeadFormData} {x : Lead}
    (h : (x.id == pk) = true) : updateRow pk d x = applyForm d x := by
  simp [updateRow, h]

/-- `updateRow` leaves every other row unchanged. -/
theorem updateRow_neg {pk : Nat} {d : LeadFormData} {x : Lead}
    (h : (x.id == pk) = false) : updateRow pk d x = x := by
  simp [updateRow, h]

/-- Updating in place commutes with the pk lookup: the row the update view
found is found again, with its fields overwritten, after the save. -/
theorem lookup_map_update (pk : Nat) (d : LeadFormData) :
    ∀ (xs : List Lead) (l : Lead), lookupLead xs pk = some l →
      lookupLead (xs.map (updateRow pk d)) pk = some (applyForm d l) := by
  intro xs
  induction xs with
  | nil => intro l h; simp [lookupLead] at h
  | cons y ys ih =>
      intro l h
      cases hy : (y.id == pk) with
      | true =>
          rw [lookupLead_cons_pos ys hy] at h
          obtain rfl : y = l := Option.some.inj h
          rw [List.map_cons, updateRow_pos hy,
            lookupLead_cons_pos _ (by simpa [applyForm_id] using hy)]
      | false =>
          rw [lookupLead_cons_neg ys hy] at h
          rw [List.map_cons, updateRow_neg hy, lookupLead_cons_neg _ hy]
          exact ih l h

/-! ### Claims -/

/-- C9: A GET to the landing path, whatever the authentication state,
returns status 200, renders "landing.html", exposes no lead data, and
leaves the persisted state untouched with no side effects. -/
theorem landing_ok (auth : Bool) (user : Nat) (db : DB) :
    (landingGet auth user db).response = some (Response.render "landing.html" []) ∧
    ((landingGet auth user db).response.map Response.status) = some 200 ∧
    (landingGet auth user db).db = db ∧
    (landingGet auth user db).events = [] ∧
    (landingGet auth user db).exposed = [] :=
  ⟨rfl, rfl, rfl, rfl, rfl⟩

/-- C7: Every unauthenticated request to the lead list, detail, create,
update or delete handlers yields a redirect to the login flow; no lead data
is exposed, the database is unchanged and no side effect runs. -/
theorem unauthenticated_redirects (user pk : Nat) (d : LeadFormData)
    (mailOk : Bool) (db : DB) :
    leadListGet false user db
      = { events := [], db := db, response := some (Response.redirect loginUrl), exposed := [] } ∧
    leadDetailGet false user pk db
      = { events := [], db := db, response := some (Response.redirect loginUrl), exposed := [] } ∧
    leadCreateGet false user db
      = { events := [], db := db, response := some (Response.redirect loginUrl), exposed := [] } ∧
    leadCreatePost false user d mailOk db
      = { events := [], db := db, response := some (Response.redirect loginUrl), exposed := [] } ∧
    leadUpdatePost false user pk d db
      = { events := [], db := db, response := some (Response.redirect loginUrl), exposed := [] } ∧
    leadDeletePost false user pk db
      = { events := [], db := db, response := some (Response.redirect loginUrl), exposed := [] } :=
  ⟨rfl, rfl, rfl, rfl, rfl, rfl⟩

/-- C10: The list, detail, update and delete views all run over the
unrestricted queryset of all leads, with no filtering by the requesting
user: each queryset equals the whole table, the list handler exposes the
whole table, and every handler result is identical for any two
authenticated users. -/
theorem unrestricted_queryset (u1 u2 pk : Nat) (d : LeadFormData) (db : DB) :
    (LeadListView.queryset db = db.leads ∧
     LeadDetailView.queryset db = db.leads ∧
     LeadUpdateView.queryset db = db.leads ∧
     LeadDeleteView.queryset db = db.leads) ∧
    (leadListGet true u1 db).exposed = db.leads ∧
    leadListGet true u1 db = leadListGet true u2 db ∧
    leadDetailGet true u1 pk db = leadDetailGet true u2 pk db ∧
    leadUpdatePost true u1 pk d db = leadUpdatePost true u2 pk d db ∧
    leadDeletePost true u1 pk db = leadDeletePost true u2 pk db :=
  ⟨⟨rfl, rfl, rfl, rfl⟩, rfl, rfl, rfl, rfl, rfl⟩

/-- C1 counterexample: at a concrete validated create (payload of
`test_lead_create`, fixture database) whose mail transport raises, the
database is unchanged — the new Lead record is NOT persisted — and no
response is produced; moreover on the success path the mail-sent event
precedes the save event.  Both refute "the record is persisted while the
notification is lost" and the claimed create-then-notify order. -/
theorem create_notify_order_counterexample :
    (leadCreatePost true 0 dJohn false db0).db = db0 ∧
    (leadCreatePost true 0 dJohn false db0).events = [] ∧
    (leadCreatePost true 0 dJohn false db0).response = none ∧
    (leadCreatePost true 0 dJohn true db0).events =
      [Event.mailSent createNotification, Event.leadSaved (dbInsert db0 dJohn).2] :=
  ⟨rfl, rfl, rfl, rfl⟩

/-- C1 (amended): `LeadCreateView.form_valid` calls `send_mail` BEFORE
`super().form_valid(form)` saves the row.  Hence for every validated
create: if the mail transport raises, no Lead record is persisted (state
unchanged) and the exception propagates with no response; on the success
path the notification is dispatched before the record is persisted
(notify-then-create order). -/
theorem create_notify_order (user : Nat) (d : LeadFormData) (db : DB)
    (hv : leadFormIsValid d = true) :
    ((leadCreatePost true user d false db).db = db ∧
     (leadCreatePost true user d false db).events = [] ∧
     (leadCreatePost true user d false db).response = none) ∧
    (leadCreatePost true user d true db).events =
      [Event.mailSent createNotification, Event.leadSaved (dbInsert db d).2] := by
  simp [leadCreatePost, hv]

/-- C1 witness: the amended theorem applied at the `test_lead_create`
payload over the fixture database. -/
theorem create_notify_order_witness :
    leadFormIsValid dJohn = true ∧
    (((leadCreatePost true 0 dJohn false db0).db = db0 ∧
      (leadCreatePost true 0 dJohn false db0).events = [] ∧
      (leadCreatePost true 0 dJohn false db0).response = none) ∧
     (leadCreatePost true 0 dJohn true db0).events =
       [Event.mailSent createNotification, Event.leadSaved (dbInsert db0 dJohn).2]) :=
  ⟨by decide, create_notify_order 0 dJohn db0 (by decide)⟩

/-- C2: Every authenticated create POST that passes validation appends
exactly one new Lead row whose fields equal the submitted values, so the
most recently created row's first name equals the submitted first name;
the notification is dispatched and the response is a 302 redirect to the
lead list view. -/
theorem create_success (user : Nat) (d : LeadFormData) (db : DB)
    (hv : leadFormIsValid d = true) :
    (leadCreatePost true user d true db).db.leads =
      db.leads ++ [{ id := db.nextId, first_name := d.first_name,
                     last_name := d.last_name, age := d.age, agent := none }] ∧
    (leadCreatePost true user d true db).db.leads.length = db.leads.length + 1 ∧
    ((leadCreatePost true user d true db).db.leads.getLast?.map Lead.first_name)
      = some d.first_name ∧
    Event.mailSent createNotification ∈ (leadCreatePost true user d true db).events ∧
    (leadCreatePost true user d true db).response = some (Response.redirect leadListUrl) ∧
    ((leadCreatePost true user d true db).response.map Response.status) = some 302 := by
  simp [leadCreatePost, hv, dbInsert, Response.status, List.getLast?_concat]

/-- C2 witness: the theorem at the `test_lead_create` payload over the
fixture database. -/
theorem create_success_witness :
    leadFormIsValid dJohn = true ∧
    ((leadCreatePost true 0 dJohn true db0).db.leads =
       db0.leads ++ [{ id := db0.nextId, first_name := dJohn.first_name,
                       last_name := dJohn.last_name, age := dJohn.age, agent := none }] ∧
     (leadCreatePost true 0 dJohn true db0).db.leads.length = db0.leads.length + 1 ∧
     ((leadCreatePost true 0 dJohn true db0).db.leads.getLast?.map Lead.first_name)
       = some dJohn.first_name ∧
     Event.mailSent createNotification ∈ (leadCreatePost true 0 dJohn true db0).events ∧
     (leadCreatePost true 0 dJohn true db0).response = some (Response.redirect leadListUrl) ∧
     ((leadCreatePost true 0 dJohn true db0).response.map Response.status) = some 302) :=
  ⟨by decide, create_success 0 dJohn db0 (by decide)⟩

/-- C3: The form validates exactly when both names are non-empty and the
age is non-negative; and any payload with a negative age is invalid with
the age field carrying exactly the message
"Ensure this value is greater than or equal to 0.". -/
theorem form_validation (d e : LeadFormData) (h : e.age < 0) :
    (leadFormIsValid d = true ↔
       (d.first_name ≠ "" ∧ d.last_name ≠ "" ∧ 0 ≤ d.age)) ∧
    leadFormIsValid e = false ∧
    fieldErrors e "age" = [ageMinErrorMsg] := by
  refine ⟨?_, ?_, ?_⟩
  · unfold leadFormIsValid leadFormErrors
    by_cases h1 : d.first_name = "" <;> by_cases h2 : d.last_name = "" <;>
      by_cases h3 : d.age < 0 <;> simp [h1, h2, h3] <;> omega
  · unfold leadFormIsValid leadFormErrors
    by_cases h1 : e.first_name = "" <;> by_cases h2 : e.last_name = "" <;>
      simp [h1, h2, h]
  · unfold fieldErrors leadFormErrors
    by_cases h1 : e.first_name = "" <;> by_cases h2 : e.last_name = "" <;>
      simp [h1, h2, h, requiredErrorMsg, ageMinErrorMsg]

/-- C3 witness: the theorem at the `test_lead_form` payload (valid) and the
`test_lead_form_invalid` payload (age -25). -/
theorem form_validation_witness :
    dNegAge.age < 0 ∧
    ((leadFormIsValid dJohn = true ↔
        (dJohn.first_name ≠ "" ∧ dJohn.last_name ≠ "" ∧ 0 ≤ dJohn.age)) ∧
     leadFormIsValid dNegAge = false ∧
     fieldErrors dNegAge "age" = [ageMinErrorMsg]) :=
  ⟨by decide, form_validation dJohn dNegAge (by decide)⟩

/-- C4: A create or update POST whose fields fail validation re-renders the
form with the per-field error messages (a non-empty error list), responds
with status 200, runs no side effect, and leaves the database unchanged. -/
theorem invalid_form_rerenders (user pk : Nat) (d : LeadFormData)
    (mailOk : Bool) (db : DB) (l : Lead)
    (hv : leadFormIsValid d = false)
    (hl : lookupLead (LeadUpdateView.queryset db) pk = some l) :
    ((leadCreatePost true user d mailOk db).db = db ∧
     (leadCreatePost true user d mailOk db).events = [] ∧
     (leadCreatePost true user d mailOk db).response =
       some (Response.render "leads/lead_create.html" (leadFormErrors d)) ∧
     ((leadCreatePost true user d mailOk db).response.map Response.status) = some 200) ∧
    ((leadUpdatePost true user pk d db).db = db ∧
     (leadUpdatePost true user pk d db).events = [] ∧
     (leadUpdatePost true user pk d db).response =
       some (Response.render "leads/lead_update.html" (leadFormErrors d)) ∧
     ((leadUpdatePost true user pk d db).response.map Response.status) = some 200) ∧
    leadFormErrors d ≠ [] := by
  refine ⟨?_, ?_, ?_⟩
  · simp [leadCreatePost, hv, Response.status]
  · simp [leadUpdatePost, hl, hv, Response.status]
  · intro heq
    simp [leadFormIsValid, heq] at hv

/-- C4 witness: the theorem at the `test_lead_form_invalid` payload (age
-25) against the fixture database and its lead. -/
theorem invalid_form_rerenders_witness :
    (leadFormIsValid dNegAge = false ∧
     lookupLead (LeadUpdateView.queryset db0) 1 = some leadJohn) ∧
    (((leadCreatePost true 0 dNegAge true db0).db = db0 ∧
      (leadCreatePost true 0 dNegAge true db0).events = [] ∧
      (leadCreatePost true 0 dNegAge true db0).response =
        some (Response.render "leads/lead_create.html" (leadFormErrors dNegAge)) ∧
      ((leadCreatePost true 0 dNegAge true db0).response.map Response.status) = some 200) ∧
     ((leadUpdatePost true 0 1 dNegAge db0).db = db0 ∧
      (leadUpdatePost true 0 1 dNegAge db0).events = [] ∧
      (leadUpdatePost true 0 1 dNegAge db0).response =
        some (Response.render "leads/lead_update.html" (leadFormErrors dNegAge)) ∧
      ((leadUpdatePost true 0 1 dNegAge db0).response.map Response.status) = some 200) ∧
     leadFormErrors dNegAge ≠ []) :=
  ⟨⟨by decide, by decide⟩,
   invalid_form_rerenders 0 1 dNegAge true db0 leadJohn (by decide) (by decide)⟩

/-- C5: An authenticated update POST on an existing pk with a valid form
overwrites exactly the targeted row in place: the resulting table is the
old table with only the pk row rewritten, the count is unchanged, the row
keeps its identity and agent while its name and age fields take the
submitted values, it is found with the new fields on reload, every row
with a different pk is still present unchanged, and the response is a 302
redirect to the list view. -/
theorem update_success (user pk : Nat) (d : LeadFormData) (db : DB) (l : Lead)
    (hl : lookupLead (LeadUpdateView.queryset db) pk = some l)
    (hv : leadFormIsValid d = true) :
    (leadUpdatePost true user pk d db).db.leads = db.leads.map (updateRow pk d) ∧
    (leadUpdatePost true user pk d db).db.leads.length = db.leads.length ∧
    ((applyForm d l).id = l.id ∧ (applyForm d l).agent = l.agent ∧
     (applyForm d l).first_name = d.first_name ∧
     (applyForm d l).last_name = d.last_name ∧ (applyForm d l).age = d.age) ∧
    lookupLead (leadUpdatePost true user pk d db).db.leads pk = some (applyForm d l) ∧
    (∀ x, x ∈ db.leads → x.id ≠ pk → x ∈ (leadUpdatePost true user pk d db).db.leads) ∧
    (leadUpdatePost true user pk d db).response = some (Response.redirect leadListUrl) ∧
    ((leadUpdatePost true user pk d db).response.map Response.status) = some 302 := by
  have hr : leadUpdatePost true user pk d db =
      { events := [Event.leadSaved (applyForm d l)]
        db := { db with leads := db.leads.map (updateRow pk d) }
        response := some (Response.redirect leadListUrl), exposed := [] } := by
    simp [leadUpdatePost, hl, hv]
  rw [hr]
  refine ⟨rfl, by simp, ⟨rfl, rfl, rfl, rfl, rfl⟩, ?_, ?_, rfl, rfl⟩
  · exact lookup_map_update pk d db.leads l hl
  · intro x hx hne
    have hrow : updateRow pk d x = x := updateRow_neg (by simpa using hne)
    exact hrow ▸ List.mem_map_of_mem _ hx

/-- C5 witness: the theorem at the `test_lead_update` payload, pk 1, over
the fixture database. -/
theorem update_success_witness :
    (lookupLead (LeadUpdateView.queryset db0) 1 = some leadJohn ∧
     leadFormIsValid dJohn = true) ∧
    ((leadUpdatePost true 0 1 dJohn db0).db.leads = db0.leads.map (updateRow 1 dJohn) ∧
     (leadUpdatePost true 0 1 dJohn db0).db.leads.length = db0.leads.length ∧
     ((applyForm dJohn leadJohn).id = leadJohn.id ∧
      (applyForm dJohn leadJohn).agent = leadJohn.agent ∧
      (applyForm dJohn leadJohn).first_name = dJohn.first_name ∧
      (applyForm dJohn leadJohn).last_name = dJohn.last_name ∧
      (applyForm dJohn leadJohn).age = dJohn.age) ∧
     lookupLead (leadUpdatePost true 0 1 dJohn db0).db.leads 1
       = some (applyForm dJohn leadJohn) ∧
     (∀ x, x ∈ db0.leads → x.id ≠ 1 → x ∈ (leadUpdatePost true 0 1 dJohn db0).db.leads) ∧
     (leadUpdatePost true 0 1 dJohn db0).response = some (Response.redirect leadListUrl) ∧
     ((leadUpdatePost true 0 1 dJohn db0).response.map Response.status) = some 302) :=
  ⟨⟨by decide, by decide⟩, update_success 0 1 dJohn db0 leadJohn (by decide) (by decide)⟩

/-- C6: An authenticated delete POST on an existing pk (held by exactly one
row) removes exactly that row: the count decreases by exactly one, every
row with a different pk is untouched, nothing else is removed, and the
response is a 302 redirect to the list view.  On the fixture's
single-record database the count reaches zero (see the witness). -/
theorem delete_success (user pk : Nat) (db : DB) (l : Lead)
    (hl : lookupLead (LeadDeleteView.queryset db) pk = some l)
    (hcount : db.leads.countP (fun x => x.id == pk) = 1) :
    (leadDeletePost true user pk db).db.leads.length + 1 = db.leads.length ∧
    (∀ x, x ∈ db.leads → x.id ≠ pk → x ∈ (leadDeletePost true user pk db).db.leads) ∧
    (∀ x, x ∈ (leadDeletePost true user pk db).db.leads → x ∈ db.leads ∧ x.id ≠ pk) ∧
    (leadDeletePost true user pk db).response = some (Response.redirect leadListUrl) ∧
    ((leadDeletePost true user pk db).response.map Response.status) = some 302 := by
  have hr : leadDeletePost true user pk db =
      { events := [Event.leadDeleted l]
        db := { db with leads := db.leads.filter (fun x => !(x.id == pk)) }
        response := some (Response.redirect leadListUrl), exposed := [] } := by
    simp [leadDeletePost, hl]
  rw [hr]
  refine ⟨?_, ?_, ?_, rfl, rfl⟩
  · have h1 : db.leads.length = db.leads.countP (fun x => x.id == pk)
        + db.leads.countP (fun x => !(x.id == pk)) := by
      have h := List.length_eq_countP_add_countP (fun x : Lead => x.id == pk)
        (l := db.leads)
      simpa using h
    have h2 : (db.leads.filter (fun x => !(x.id == pk))).length
        = db.leads.countP (fun x => !(x.id == pk)) :=
      (List.countP_eq_length_filter _ _).symm
    simp only [HResult.db]
    omega
  · intro x hx hne
    exact List.mem_filter.mpr ⟨hx, by simpa using hne⟩
  · intro x hx
    have hm := List.mem_filter.mp hx
    exact ⟨hm.1, by simpa using hm.2⟩

/-- C6 witness: the theorem at pk 1 over the single-record fixture
database; the count reaches zero there. -/
theorem delete_success_witness :
    (lookupLead (LeadDeleteView.queryset db0) 1 = some leadJohn ∧
     db0.leads.countP (fun x => x.id == 1) = 1) ∧
    ((leadDeletePost true 0 1 db0).db.leads.length + 1 = db0.leads.length ∧
     (∀ x, x ∈ db0.leads → x.id ≠ 1 → x ∈ (leadDeletePost true 0 1 db0).db.leads) ∧
     (∀ x, x ∈ (leadDeletePost true 0 1 db0).db.leads → x ∈ db0.leads ∧ x.id ≠ 1) ∧
     (leadDeletePost true 0 1 db0).response = some (Response.redirect leadListUrl) ∧
     ((leadDeletePost true 0 1 db0).response.map Response.status) = some 302) ∧
    (leadDeletePost true 0 1 db0).db.leads.length = 0 :=
  ⟨⟨by decide, by decide⟩, delete_success 0 1 db0 leadJohn (by decide) (by decide),
   by decide⟩

/-- C8: Every successful create dispatches exactly one notification equal
to the hardcoded constant — sender "test@test.com", recipient list
["test2@test.com"], fixed subject and message — identical across any two
create requests whatever their form data, database or user. -/
theorem notification_constant (u1 u2 : Nat) (d1 d2 : LeadFormData)
    (db1 db2 : DB)
    (h1 : leadFormIsValid d1 = true) (h2 : leadFormIsValid d2 = true) :
    sentMails (leadCreatePost true u1 d1 true db1) = [createNotification] ∧
    sentMails (leadCreatePost true u2 d2 true db2) = [createNotification] ∧
    sentMails (leadCreatePost true u1 d1 true db1)
      = sentMails (leadCreatePost true u2 d2 true db2) ∧
    createNotification.subject = "A lead has been created" ∧
    createNotification.message = "Go to the site to see the new lead" ∧
    createNotification.from_email = "test@test.com" ∧
    createNotification.recipient_list = ["test2@test.com"] := by
  simp [leadCreatePost, sentMails, h1, h2, createNotification]

/-- C8 witness: the theorem at two different payloads, users and databases;
both runs deliver the identical hardcoded notification. -/
theorem notification_constant_witness :
    (leadFormIsValid dJohn = true ∧
     leadFormIsValid { first_name := "Test", last_name := "User", age := 30 } = true) ∧
    (sentMails (leadCreatePost true 0 dJohn true db0) = [createNotification] ∧
     sentMails (leadCreatePost true 7
         { first_name := "Test", last_name := "User", age := 30 } true
         { leads := [], nextId := 1 }) = [createNotification] ∧
     sentMails (leadCreatePost true 0 dJohn true db0)
       = sentMails (leadCreatePost true 7
           { first_name := "Test", last_name := "User", age := 30 } true
           { leads := [], nextId := 1 }) ∧
     createNotification.subject = "A lead has been created" ∧
     createNotification.message = "Go to the site to see the new lead" ∧
     createNotification.from_email = "test@test.com" ∧
     createNotification.recipient_list = ["test2@test.com"]) :=
  ⟨⟨by decide, by decide⟩,
   notification_constant 0 7 dJohn
     { first_name := "Test", last_name := "User", age := 30 } db0
     { leads := [], nextId := 1 } (by decide) (by decide)⟩

end CRM
